import Mathlib

/-!
Verification development for the frappe_vue_ssr repository.

The repository is a Frappe page-renderer plugin
(src/frappe_vue_ssr/vue_renderer/vue_renderer.py) plus a legacy entry
point (src/frappe_vue_ssr/www/frontend.py).  This file gives a shallow
embedding of the data model and the operations of those two files:
pure string manipulation is translated directly, and the effectful
parts (filesystem probes, subprocess invocations, JSON decoding of the
subprocess stdout) are modelled by explicit environment records that
carry the outcome of each external interaction.
-/

/-! ## Generic string helpers

Executable, structurally recursive counterparts of the Python string
operations used by the source (str.strip, str.startswith, str.split,
int(), os.path.basename, os.path.dirname, os.path.splitext,
",".join).  They operate on the underlying character lists so that
concrete instances reduce inside the kernel. -/

/-- Model of Python str.strip(): drop leading and trailing whitespace. -/
def trimChars (l : List Char) : List Char :=
  ((l.dropWhile Char.isWhitespace).reverse.dropWhile Char.isWhitespace).reverse

/-- Digits of a decimal numeral; none when empty or a non-digit occurs.
Accumulator form so that concrete inputs reduce structurally. -/
def digitsToNatAux : List Char → Nat → Option Nat
  | [], acc => some acc
  | c :: rest, acc =>
    if c.isDigit then digitsToNatAux rest (acc * 10 + (c.toNat - 48)) else none

/-- Parse a nonempty all-digit list as a Nat. -/
def digitsToNat? : List Char → Option Nat
  | [] => none
  | c :: rest => digitsToNatAux (c :: rest) 0

/-- Model of Python int() on the strings produced by the version probe:
an optional sign followed by decimal digits.  (Python int() additionally
accepts surrounding whitespace and digit-group underscores; those inputs
do not occur in version strings.) -/
def parseInt? : List Char → Option Int
  | '-' :: rest => (digitsToNat? rest).map (fun n => -(n : Int))
  | '+' :: rest => (digitsToNat? rest).map (fun n => (n : Int))
  | l => (digitsToNat? l).map (fun n => (n : Int))

/-- Boolean list-prefix test, structurally recursive. -/
def isPrefixList : List Char → List Char → Bool
  | [], _ => true
  | _ :: _, [] => false
  | a :: as, b :: bs => a = b && isPrefixList as bs

/-- Model of Python str.startswith via the underlying character lists. -/
def strStartsWith (s pat : String) : Bool :=
  isPrefixList pat.data s.data

/-- One step of the character splitter: extend the first segment of the
already-split tail, or open a new empty segment at a separator. -/
def splitOnCharStep (c x : Char) (r : List (List Char)) : List (List Char) :=
  match r with
  | [] => [[]]
  | h :: t => if x = c then [] :: h :: t else (x :: h) :: t

/-- Split a character list at every occurrence of the separator,
modelling Python str.split(sep).  Always returns a nonempty list. -/
def splitOnCharList (c : Char) : List Char → List (List Char)
  | [] => [[]]
  | x :: xs => splitOnCharStep c x (splitOnCharList c xs)

/-- Last element of a list of segments, with a default.  Models the
Python negative index split(sep)[-1] (the split list is never empty). -/
def lastSegD (d : List Char) : List (List Char) → List Char
  | [] => d
  | [x] => x
  | _ :: x :: xs => lastSegD d (x :: xs)

/-- Model of os.path.basename on slash-separated paths. -/
def lastPathComponent (s : String) : String :=
  String.mk (lastSegD [] (splitOnCharList '/' s.data))

/-- Rejoin segments with a slash; helper for the dirname model. -/
def joinSlash : List (List Char) → List Char
  | [] => []
  | [x] => x
  | x :: y :: rest => x ++ '/' :: joinSlash (y :: rest)

/-- Model of os.path.dirname on slash-separated paths. -/
def strDirname (s : String) : String :=
  String.mk (joinSlash ((splitOnCharList '/' s.data).dropLast))

/-- Model of the root part of os.path.splitext: everything before the
last dot, where dots leading the name do not count as an extension
separator. -/
def splitextRoot (f : String) : String :=
  let cs := f.data
  let lead := cs.takeWhile (fun c => c = '.')
  let rest := cs.dropWhile (fun c => c = '.')
  if rest.contains '.' then
    String.mk (lead ++ ((rest.reverse.dropWhile (fun c => c ≠ '.')).drop 1).reverse)
  else f

/-- Model of ", ".join(l) from the source error message. -/
def joinComma : List String → String
  | [] => ""
  | [v] => v
  | v :: w :: rest => v ++ ", " ++ joinComma (w :: rest)

/-- Substring relation on strings, via the infix relation of the
underlying character lists. -/
def ContainsSubstr (hay needle : String) : Prop :=
  needle.data <:+: hay.data

instance (hay needle : String) : Decidable (ContainsSubstr hay needle) := by
  unfold ContainsSubstr; infer_instance

/-! ## Node.js runtime selection

Model of VueRenderer.get_compatible_node_command
(vue_renderer.py lines 75-146).  Each candidate command of the probed
list is paired with the outcome of running it with the version flag:
either the invocation raised (missing executable, subprocess error,
probe timeout) or it completed with an exit code and a stdout text. -/

/-- Outcome of one subprocess.run([cmd, "--version"], ..., timeout=5)
probe: err models the except (SubprocessError, ValueError,
FileNotFoundError) path for a raising invocation. -/
inductive ProbeOutcome where
  | err
  | ok (returncode : Int) (stdout : String)
deriving DecidableEq

/-- One entry of the v22_nodes and other_nodes accumulators of the
source: (cmd, major_version, version). -/
structure NodeCand where
  cmd : String
  major : Int
  version : String
deriving DecidableEq

/-- Model of per-candidate processing inside the probe loop (lines
94-115): requires exit code 0, strips stdout, requires a leading v, and
parses the first dot-separated component as the major version.  A
ValueError from int() is caught by the loop and skips the candidate, so
every failure is none. -/
def probeVersion : ProbeOutcome → Option (Int × String)
  | ProbeOutcome.err => none
  | ProbeOutcome.ok rc out =>
    if rc = 0 then
      let v := trimChars out.data
      match v with
      | 'v' :: rest =>
        match parseInt? (rest.takeWhile (fun c => c ≠ '.')) with
        | some mj => some (mj, String.mk v)
        | none => none
      | _ => none
    else none

/-- One iteration of the probe loop (lines 107-112): a successfully
parsed candidate is appended to v22_nodes when its major version is at
least 22, to other_nodes when it is at least 18, and dropped
otherwise; a skipped candidate changes nothing. -/
def collectStep (cmd : String) (pv : Option (Int × String))
    (r : List NodeCand × List NodeCand) : List NodeCand × List NodeCand :=
  match pv with
  | some (mj, ver) =>
    if mj ≥ 22 then (⟨cmd, mj, ver⟩ :: r.1, r.2)
    else if mj ≥ 18 then (r.1, ⟨cmd, mj, ver⟩ :: r.2)
    else r
  | none => r

/-- Model of the probe loop (lines 91-115): first component collects
v22_nodes (major greater or equal 22), second collects other_nodes
(major greater or equal 18 and below 22), both in probe order. -/
def collectNodes : List (String × ProbeOutcome) → List NodeCand × List NodeCand
  | [] => ([], [])
  | (cmd, o) :: rest => collectStep cmd (probeVersion o) (collectNodes rest)

/-- Stable insertion step for sorting by major version, descending: a
new element goes in front of the first already-placed element whose key
does not exceed it.  Models the stability of Python list.sort
(key=major, reverse=True), under which elements with equal keys keep
their probe order. -/
def insertByMajorDesc (e : NodeCand) : List NodeCand → List NodeCand
  | [] => [e]
  | x :: xs => if x.major ≤ e.major then e :: x :: xs else x :: insertByMajorDesc e xs

/-- Stable sort by major version, descending; models
v22_nodes.sort(key=lambda x: x[1], reverse=True) at line 120. -/
def sortByMajorDesc : List NodeCand → List NodeCand
  | [] => []
  | x :: xs => insertByMajorDesc x (sortByMajorDesc xs)

/-- First element achieving the maximal major version of the list; the
head of the stable descending sort, in closed form. -/
def firstMaxMajor : List NodeCand → Option NodeCand
  | [] => none
  | x :: xs =>
    match firstMaxMajor xs with
    | none => some x
    | some b => if b.major > x.major then some b else some x

/-- The payload of frappe.throw: message and title. -/
structure FrappeThrow where
  msg : String
  title : String
deriving DecidableEq

/-- The fixed installation-instructions block appended to the missing
Node.js error message (lines 135-142). -/
def nodeInstallMsg : String :=
  "\nInstallation options:\n- Using Homebrew: brew install node@22\n- Using Node Version Manager: nvm install 22 && nvm use 22\n- Download from: https://nodejs.org/\n\nAfter installation, you may need to restart your Frappe server.\n"

/-- The frappe.throw payload built when no v22+ candidate was found
(lines 126-145), listing the versions of the 18..21 candidates when any
were seen. -/
def nodeMissingThrow (others : List NodeCand) : FrappeThrow :=
  let base := "❌ Node.js v22 or higher is required for Vue SSR.\n"
  let msg :=
    if others.isEmpty then base
    else base ++ "Found Node.js versions: " ++ joinComma (others.map NodeCand.version) ++ "\n"
  ⟨msg ++ nodeInstallMsg, "Node.js v22+ Required"⟩

/-- Model of VueRenderer.get_compatible_node_command (lines 75-146):
probe all candidates, and if any v22+ candidate exists return the head
of the stable major-descending sort, otherwise raise (frappe.throw)
with the diagnostic message. -/
def getCompatibleNodeCommand (probes : List (String × ProbeOutcome)) :
    Except FrappeThrow String :=
  let collected := collectNodes probes
  match (sortByMajorDesc collected.1).head? with
  | some best => Except.ok best.cmd
  | none => Except.error (nodeMissingThrow collected.2)

/-! ## HTML document assembly

Models of VueRenderer.build_complete_html (lines 243-307),
VueRenderer._fallback_html (lines 309-347),
VueRenderer._generate_client_script_tag (lines 349-363) and
VueRenderer._register_static_file (lines 365-388).  The f-string
templates are reproduced as concatenations of literal segments; the
Python double braces of the f-strings denote single literal braces in
the output and appear below as escaped brace characters. -/

/-- Severity of a log line emitted through logger or frappe.log_error. -/
inductive LogLevel where
  | error
  | warning
  | debug
deriving DecidableEq

/-- The placeholder emitted when no client bundle URL is present. -/
def noBundleComment : String := "<!\x2d\x2d No client bundle available \x2d\x2d>"

/-- The script tag emitted for a client bundle URL, the URL verbatim. -/
def scriptTagFor (url : String) : String :=
  "<script src=\"" ++ url ++ "\"></script>"

/-- Model of VueRenderer._generate_client_script_tag (lines 349-363):
empty URL yields the placeholder comment; a leading-slash URL is
registered for static serving (see registerStaticFile, whose result is
ignored by the source) and yields the script tag; any other URL is
treated as external and yields the same script tag. -/
def generateClientScriptTag (url : String) : String :=
  if url = "" then noBundleComment
  else if strStartsWith url "/" then scriptTagFor url
  else scriptTagFor url

/-- Model of VueRenderer._register_static_file (lines 365-388) given
the set of existing filesystem paths: for a URL under the owning app
asset route, check that the bundle file exists under
app_path/public/ssr and log an error when it does not; other URL shapes
log a warning.  Returns the Bool result of the source together with the
log lines it emits. -/
def registerStaticFile (app appPath : String) (existingPaths : List String)
    (fileUrl : String) : Bool × List (LogLevel × String) :=
  if strStartsWith fileUrl ("/assets/" ++ app ++ "/ssr/") then
    let filename := lastPathComponent fileUrl
    let expectedPath := appPath ++ "/public/ssr/" ++ filename
    if expectedPath ∈ existingPaths then
      (true, [(LogLevel.debug, "Vue client bundle found at " ++ expectedPath)])
    else
      (false, [(LogLevel.error, "Vue client bundle not found at " ++ expectedPath)])
  else
    (false, [(LogLevel.warning, "Unrecognized static file URL pattern: " ++ fileUrl)])

/-- build_complete_html template, from the start up to the title hole. -/
def bcHead1 : String := "\n        <!DOCTYPE html>\n        <html>\n        <head>\n            <title>"

/-- build_complete_html template, from the title hole up to the
component-styles marker comment (lines 254-281 of the source). -/
def bcHead2 : String := "</title>\n            <meta charset=\"utf-8\">\n            <meta name=\"viewport\" content=\"width=device-width, initial-scale=1\">\n            <!\x2d\x2d Vue is bundled in the client JavaScript, no CDN needed \x2d\x2d>\n            <style>\n                body \x7b\n                    font-family: -apple-system, BlinkMacSystemFont, \x27Segoe UI\x27, Roboto, sans-serif;\n                    margin: 0;\n                    padding: 20px;\n                    line-height: 1.6;\n                \x7d\n                .vue-ssr-rendered \x7b\n                    color: #2c3e50;\n                \x7d\n                .server-rendered \x7b\n                    background: linear-gradient(135deg, #667eea 0%, #764ba2 100%);\n                    color: white;\n                    padding: 12px 20px;\n                    border-radius: 8px;\n                    margin-bottom: 20px;\n                    box-shadow: 0 2px 10px rgba(0,0,0,0.1);\n                \x7d\n                .server-rendered small \x7b\n                    display: flex;\n                    align-items: center;\n                    gap: 8px;\n                \x7d\n\n                "

/-- The marker comment directly preceding the injected component
styles inside the embedded stylesheet. -/
def styleMark : String := "/* Vue Component Styles */\n                "

/-- Closing of the embedded stylesheet after the styles hole. -/
def styleClose : String := "\n            </style>"

/-- build_complete_html template between the stylesheet and the
timestamp hole (lines 285-290). -/
def bcBody1 : String := "\n        </head>\n        <body>\n            <div class=\"server-rendered\">\n                <small>\n                    🔥 Server-side rendered with Python + Node.js + Vue SSR (Self-contained Bundle)\n                    <span style=\"opacity: 0.8;\">("

/-- build_complete_html template between the timestamp hole and the
mount-point element (lines 290-293). -/
def bcBody2 : String := ")</span>\n                </small>\n            </div>\n            "

/-- Opening tag of the mount-point element into which the rendered
markup is substituted (line 293). -/
def mountOpen : String := "<div id=\"app\" class=\"vue-ssr-rendered\">"

/-- Closing tag of the mount-point element. -/
def mountClose : String := "</div>"

/-- Whitespace between the mount point and the hydration script. -/
def bcGap1 : String := "\n\n            "

/-- Opening of the hydration data script block (lines 295-297). -/
def hydrationOpen : String := "<script>\n                // Inject server data for hydration\n                "

/-- Closing of the hydration data script block. -/
def hydrationClose : String := "\n            </script>"

/-- Whitespace between the hydration script and the client bundle
script tag slot. -/
def bcGap2 : String := "\n\n            "

/-- build_complete_html template after the client script tag slot
(lines 301-307). -/
def bcTail : String := "\n\n            <script>\n                console.log(\x27🚀 Vue app hydrated with self-contained bundle!\x27);\n            </script>\n        </body>\n        </html>\n        "

/-- Model of VueRenderer.build_complete_html (lines 243-307): the
complete success document, with the page title, the injected styles,
the server timestamp, the rendered markup inside the mount point, the
hydration data script block and the client bundle script tag slot.
(The is_development flag computed at line 248 is unused by the
template and is omitted.) -/
def buildCompleteHtml (title nowStr renderedHtml styles clientBundleUrl serverDataScript : String) : String :=
  bcHead1 ++ title ++ bcHead2 ++ styleMark ++ styles ++ styleClose ++ bcBody1 ++ nowStr
    ++ bcBody2 ++ mountOpen ++ renderedHtml ++ mountClose ++ bcGap1 ++ hydrationOpen
    ++ serverDataScript ++ hydrationClose ++ bcGap2 ++ generateClientScriptTag clientBundleUrl
    ++ bcTail

/-- _fallback_html template, from the start up to the error-text hole
(lines 313-339). -/
def fbHead : String := "\n        <!DOCTYPE html>\n        <html>\n        <head>\n            <title>Vue SSR Error</title>\n            <meta charset=\"utf-8\">\n            <style>\n                body \x7b font-family: Arial, sans-serif; margin: 40px; \x7d\n                .error \x7b\n                    background: #fee;\n                    border: 1px solid #f88;\n                    padding: 20px;\n                    border-radius: 4px;\n                    color: #c33;\n                \x7d\n                .fallback \x7b\n                    background: #fff3cd;\n                    border: 1px solid #ffeaa7;\n                    padding: 15px;\n                    border-radius: 4px;\n                    margin-top: 20px;\n                \x7d\n            </style>\n        </head>\n        <body>\n            <div class=\"error\">\n                "

/-- _fallback_html template between the error-text hole and the vue
file path hole (lines 340-343). -/
def fbMid : String := "\n            </div>\n            <div class=\"fallback\">\n                <p><strong>Note:</strong> This is a fallback view. The Vue component could not be server-rendered.</p>\n                <p>Vue file: <code>"

/-- _fallback_html template after the vue file path hole. -/
def fbTail : String := "</code></p>\n            </div>\n        </body>\n        </html>\n        "

/-- Model of VueRenderer._fallback_html (lines 309-347): the fallback
document embedding the error text and the offending component path. -/
def fallbackHtml (vueFilePath errHtml : String) : String :=
  fbHead ++ errHtml ++ fbMid ++ vueFilePath ++ fbTail

/-! ## SSR invocation

Model of VueRenderer.render_vue_with_nodejs (lines 148-226).  The
subprocess stdout is abstracted by the outcome of json.loads on it
together with the truthiness of the fields the source reads from the
decoded object. -/

/-- The fields of the decoded JSON response that the source reads via
response.get; a missing field is none (response.get default).  The
success field abstracts the truthiness test "not response.get(s)". -/
structure SSRResponse where
  success : Bool
  error : Option String
  html : Option String
  styles : Option String
  clientBundleUrl : Option String
  serverDataScript : Option String
deriving DecidableEq

/-- Outcome of json.loads(result.stdout): either a JSONDecodeError with
its message, or the decoded response object. -/
inductive ParseOutcome where
  | parseError (msg : String)
  | parsed (resp : SSRResponse)
deriving DecidableEq

/-- A completed SSR subprocess run: exit code, stderr text, and the
JSON-decoding outcome of stdout. -/
structure SubprocResult where
  returncode : Int
  stderr : String
  stdoutParse : ParseOutcome
deriving DecidableEq

/-- Outcome of the main subprocess.run call (lines 177-183): completed,
raised subprocess.TimeoutExpired, or raised some other exception. -/
inductive RunOutcome where
  | completed (r : SubprocResult)
  | timeout
  | raised (msg : String)
deriving DecidableEq

/-- The request-scoped state of a render_vue_with_nodejs call: the
locator fields it reads from self, the existence of the Node renderer
script, the version-probe outcomes, and the main subprocess outcome. -/
structure RenderEnv where
  app : String
  appPath : String
  vueFilePath : String
  rendererPath : String
  rendererExists : Bool
  titleOpt : Option String
  nowStr : String
  probes : List (String × ProbeOutcome)
  ssrRun : RunOutcome
deriving DecidableEq

/-- Model of VueRenderer.render_vue_with_nodejs (lines 148-226).  The
whole body runs inside try/except: except subprocess.TimeoutExpired and
except Exception both return fallback documents, so the frappe.throw
raised by get_compatible_node_command (a frappe.ValidationError, hence
an Exception) is caught at line 223 and degrades to the fallback
document whose error text is the str of the exception, namely the
throw message. -/
def renderVueWithNodejs (env : RenderEnv) : Except FrappeThrow String :=
  if env.rendererExists = false then
    Except.ok (fallbackHtml env.vueFilePath
      ("Node.js Vue SSR renderer not found at " ++ env.rendererPath))
  else
    match getCompatibleNodeCommand env.probes with
    | Except.error t =>
      Except.ok (fallbackHtml env.vueFilePath ("Vue SSR Exception: " ++ t.msg))
    | Except.ok _nodeCmd =>
      match env.ssrRun with
      | RunOutcome.timeout =>
        Except.ok (fallbackHtml env.vueFilePath "Vue SSR renderer timed out")
      | RunOutcome.raised m =>
        Except.ok (fallbackHtml env.vueFilePath ("Vue SSR Exception: " ++ m))
      | RunOutcome.completed r =>
        if r.returncode ≠ 0 then
          Except.ok (fallbackHtml env.vueFilePath
            ("Vue SSR Error: " ++ (if r.stderr = "" then "Node.js renderer failed" else r.stderr)))
        else
          match r.stdoutParse with
          | ParseOutcome.parseError m =>
            Except.ok (fallbackHtml env.vueFilePath ("Invalid JSON response from Vue SSR: " ++ m))
          | ParseOutcome.parsed resp =>
            if resp.success = false then
              Except.ok (fallbackHtml env.vueFilePath ((resp.html).getD ""))
            else
              Except.ok (buildCompleteHtml ((env.titleOpt).getD "Vue Page") env.nowStr
                ((resp.html).getD "") ((resp.styles).getD "")
                ((resp.clientBundleUrl).getD "") ((resp.serverDataScript).getD ""))

/-- The failure outcomes enumerated by the source error handling:
missing renderer script, frappe.throw from node selection, timeout,
any other exception, non-zero exit code, undecodable stdout, or a
decoded response whose success flag is falsy. -/
def FailureOutcome (env : RenderEnv) : Prop :=
  env.rendererExists = false ∨
  (∃ t, getCompatibleNodeCommand env.probes = Except.error t) ∨
  env.ssrRun = RunOutcome.timeout ∨
  (∃ m, env.ssrRun = RunOutcome.raised m) ∨
  (∃ r, env.ssrRun = RunOutcome.completed r ∧
    (r.returncode ≠ 0 ∨
     (∃ m, r.stdoutParse = ParseOutcome.parseError m) ∨
     (∃ resp, r.stdoutParse = ParseOutcome.parsed resp ∧ resp.success = false)))

/-! ## Component locator

Model of VueRenderer.set_vue_template_path (lines 17-46) and
VueRenderer.can_render (lines 48-52).  An installed app is modelled by
its name, its root path and the set of request paths p for which the
file app_path/www/p.vue exists, paired with that file content. -/

/-- An installed app: frappe.get_app_path(app) result and the existing
www/<p>.vue files with their contents. -/
structure AppEntry where
  name : String
  appPath : String
  vueFiles : List (String × String)
deriving DecidableEq

/-- The instance fields set by set_vue_template_path when a component
file is found. -/
structure PageLocator where
  app : String
  appPath : String
  vueFilePath : String
  templatePath : String
  basepath : String
  filename : String
  name : String
  content : String
deriving DecidableEq

/-- The locator record built for a hit in app a (lines 31-44):
vue_file_path is os.path.join(app_path, "www", path + ".vue");
template_path is os.path.relpath of it from app_path; basepath,
filename and name are the dirname, basename and splitext root. -/
def mkLocator (a : AppEntry) (path content : String) : PageLocator :=
  let vfp := a.appPath ++ "/www/" ++ path ++ ".vue"
  { app := a.name
    appPath := a.appPath
    vueFilePath := vfp
    templatePath := "www/" ++ path ++ ".vue"
    basepath := strDirname vfp
    filename := lastPathComponent vfp
    name := splitextRoot (lastPathComponent vfp)
    content := content }

/-- The scan of the loop body: first app whose www directory has the
component file wins; os.path.isfile and the file read are modelled by
the lookup in vueFiles. -/
def scanApps (path : String) : List AppEntry → Option PageLocator
  | [] => none
  | a :: rest =>
    match a.vueFiles.lookup path with
    | some content => some (mkLocator a path content)
    | none => scanApps path rest

/-- Model of set_vue_template_path (lines 17-46): scan the installed
apps in reversed(frappe.get_installed_apps()) order. -/
def setVueTemplatePath (installedApps : List AppEntry) (path : String) : Option PageLocator :=
  scanApps path installedApps.reverse

/-- Model of can_render (lines 48-52): vue_file_path was set and the
file still exists; the filesystem model is stable, so this is exactly
whether the scan found a component. -/
def canRender (installedApps : List AppEntry) (path : String) : Bool :=
  (setVueTemplatePath installedApps path).isSome

/-- Model of update_context (lines 390-396): the context title derived
from the locator name. -/
def contextTitle (loc : PageLocator) : String :=
  "Vue SSR: " ++ loc.name

/-! ## Legacy entry point

Model of src/frappe_vue_ssr/www/frontend.py. -/

/-- Modelled from the spec: run_script is called by get_html_from_vue
but is not defined anywhere under src/; the spec describes this entry
point as one that directly shells out to a build script and assigns
its output as the response body.  The shell-out is modelled as an
oracle from the command line to the text it produces. -/
structure LegacyShell where
  runScript : String → String

/-- Model of get_html_from_vue (frontend.py lines 11-13): shell out to
node build.js and return its output. -/
def getHtmlFromVue (sh : LegacyShell) : String :=
  sh.runScript "node build.js"

/-- Model of get_context (frontend.py lines 7-9): the value assigned
to frappe.response.content. -/
def getContextResponseContent (sh : LegacyShell) : String :=
  getHtmlFromVue sh

/-! ## Concrete fixtures

Concrete probe lists, subprocess outcomes and environments used to
evaluate the model on specific inputs. -/

/-- A probe list whose only candidate is a Node.js v22 binary. -/
def demoProbes : List (String × ProbeOutcome) := [("node", ProbeOutcome.ok 0 "v22.12.0")]

/-- A probe list with two v22 candidates of distinct full versions, the
lower minor version probed first. -/
def probesAB : List (String × ProbeOutcome) :=
  [("nodeA", ProbeOutcome.ok 0 "v22.1.0"), ("nodeB", ProbeOutcome.ok 0 "v22.9.0")]

/-- The same two candidates probed in the opposite order. -/
def probesBA : List (String × ProbeOutcome) :=
  [("nodeB", ProbeOutcome.ok 0 "v22.9.0"), ("nodeA", ProbeOutcome.ok 0 "v22.1.0")]

/-- The probe results of the spec example: v18.x, v23.x and v22.1. -/
def probesSpecExample : List (String × ProbeOutcome) :=
  [("n18", ProbeOutcome.ok 0 "v18.3.0"), ("n23", ProbeOutcome.ok 0 "v23.5.0"),
   ("n22", ProbeOutcome.ok 0 "v22.1.0")]

/-- A probe list that only finds a below-threshold Node.js v18. -/
def probes18 : List (String × ProbeOutcome) := [("node", ProbeOutcome.ok 0 "v18.19.0")]

/-- A concrete render environment around the given probe results and
main subprocess outcome. -/
def demoEnv (probes : List (String × ProbeOutcome)) (run : RunOutcome) : RenderEnv :=
  { app := "frappe_vue_ssr"
    appPath := "/bench/apps/frappe_vue_ssr/frappe_vue_ssr"
    vueFilePath := "/bench/apps/frappe_vue_ssr/frappe_vue_ssr/www/index.vue"
    rendererPath := "/bench/apps/frappe_vue_ssr/frappe_vue_ssr/vue_renderer/vue_ssr_renderer.js"
    rendererExists := true
    titleOpt := some "Vue SSR: index"
    nowStr := "2026-10-12 00:00:00"
    probes := probes
    ssrRun := run }

/-- The decoded response of the spec example: success with markup,
empty styles, a local bundle URL and an empty hydration script. -/
def respHi : SSRResponse :=
  { success := true, error := none, html := some "<p>hi</p>", styles := some ""
    clientBundleUrl := some "/assets/app/ssr/b.js", serverDataScript := some "" }

/-- A successful decoded response with no client bundle URL field. -/
def respNoBundle : SSRResponse :=
  { success := true, error := none, html := some "<p>hi</p>", styles := some ""
    clientBundleUrl := none, serverDataScript := some "" }

/-- A clean exit whose stdout decodes to the spec example response. -/
def runHi : RunOutcome := RunOutcome.completed ⟨0, "", ParseOutcome.parsed respHi⟩

/-- An exit code 1 run with stderr boom, whose stdout nevertheless
decodes to a successful response. -/
def runBoom : RunOutcome := RunOutcome.completed ⟨1, "boom", ParseOutcome.parsed respHi⟩

/-- A clean exit whose decoded response has no bundle URL. -/
def runNoBundle : RunOutcome := RunOutcome.completed ⟨0, "", ParseOutcome.parsed respNoBundle⟩

/-- A first installed app owning www/index.vue. -/
def appA : AppEntry :=
  ⟨"appA", "/bench/apps/appA/appA", [("index", "<template>A</template>")]⟩

/-- A later installed app also owning www/index.vue. -/
def appB : AppEntry :=
  ⟨"appB", "/bench/apps/appB/appB", [("index", "<template>B</template>")]⟩

/-! ## Helper lemmas -/

theorem strData_ext (s t : String) (h : s.data = t.data) : s = t := by
  cases s; cases t; exact congrArg String.mk h

theorem containsSubstr_intro (hay a n b : String) (h : hay = a ++ n ++ b) :
    ContainsSubstr hay n := by
  refine ⟨a.data, b.data, ?_⟩
  rw [h]
  simp [String.data_append]

theorem containsSubstr_trans (hay mid n : String) (h1 : ContainsSubstr hay mid)
    (h2 : ContainsSubstr mid n) : ContainsSubstr hay n :=
  List.IsInfix.trans h2 h1

theorem str_append_ne_empty (a b : String) (ha : a ≠ "") : a ++ b ≠ "" := by
  intro h0
  apply ha
  have hd : a.data ++ b.data = [] := by
    have := congrArg String.data h0
    simpa [String.data_append] using this
  have hda : a.data = [] := (List.append_eq_nil.mp hd).1
  exact strData_ext a "" hda

theorem fbHead_ne_empty : fbHead ≠ "" := by decide

theorem bcHead1_ne_empty : bcHead1 ≠ "" := by decide

theorem fallbackHtml_ne_empty (p m : String) : fallbackHtml p m ≠ "" := by
  unfold fallbackHtml
  simp only [String.append_assoc]
  exact str_append_ne_empty _ _ fbHead_ne_empty

theorem buildCompleteHtml_ne_empty (t n h s u d : String) :
    buildCompleteHtml t n h s u d ≠ "" := by
  unfold buildCompleteHtml
  simp only [String.append_assoc]
  exact str_append_ne_empty _ _ bcHead1_ne_empty

theorem fallbackHtml_contains_err (p m : String) : ContainsSubstr (fallbackHtml p m) m :=
  containsSubstr_intro _ fbHead m (fbMid ++ p ++ fbTail)
    (by simp [fallbackHtml, String.append_assoc])

theorem fallbackHtml_contains_path (p m : String) : ContainsSubstr (fallbackHtml p m) p :=
  containsSubstr_intro _ (fbHead ++ m ++ fbMid) p fbTail
    (by simp [fallbackHtml, String.append_assoc])

theorem buildCompleteHtml_contains_mount (t n h s u d : String) :
    ContainsSubstr (buildCompleteHtml t n h s u d) (mountOpen ++ h ++ mountClose) :=
  containsSubstr_intro _
    (bcHead1 ++ t ++ bcHead2 ++ styleMark ++ s ++ styleClose ++ bcBody1 ++ n ++ bcBody2)
    (mountOpen ++ h ++ mountClose)
    (bcGap1 ++ hydrationOpen ++ d ++ hydrationClose ++ bcGap2 ++ generateClientScriptTag u ++ bcTail)
    (by simp [buildCompleteHtml, String.append_assoc])

theorem buildCompleteHtml_contains_styles (t n h s u d : String) :
    ContainsSubstr (buildCompleteHtml t n h s u d) (styleMark ++ s ++ styleClose) :=
  containsSubstr_intro _ (bcHead1 ++ t ++ bcHead2) (styleMark ++ s ++ styleClose)
    (bcBody1 ++ n ++ bcBody2 ++ mountOpen ++ h ++ mountClose ++ bcGap1 ++ hydrationOpen
      ++ d ++ hydrationClose ++ bcGap2 ++ generateClientScriptTag u ++ bcTail)
    (by simp [buildCompleteHtml, String.append_assoc])

theorem buildCompleteHtml_contains_hydration (t n h s u d : String) :
    ContainsSubstr (buildCompleteHtml t n h s u d) (hydrationOpen ++ d ++ hydrationClose) :=
  containsSubstr_intro _
    (bcHead1 ++ t ++ bcHead2 ++ styleMark ++ s ++ styleClose ++ bcBody1 ++ n ++ bcBody2
      ++ mountOpen ++ h ++ mountClose ++ bcGap1)
    (hydrationOpen ++ d ++ hydrationClose)
    (bcGap2 ++ generateClientScriptTag u ++ bcTail)
    (by simp [buildCompleteHtml, String.append_assoc])

theorem buildCompleteHtml_contains_scriptSlot (t n h s u d : String) :
    ContainsSubstr (buildCompleteHtml t n h s u d) (generateClientScriptTag u) :=
  containsSubstr_intro _
    (bcHead1 ++ t ++ bcHead2 ++ styleMark ++ s ++ styleClose ++ bcBody1 ++ n ++ bcBody2
      ++ mountOpen ++ h ++ mountClose ++ bcGap1 ++ hydrationOpen ++ d ++ hydrationClose ++ bcGap2)
    (generateClientScriptTag u) bcTail
    (by simp [buildCompleteHtml, String.append_assoc])

theorem generateClientScriptTag_nonempty_url (url : String) (h : url ≠ "") :
    generateClientScriptTag url = scriptTagFor url := by
  unfold generateClientScriptTag
  rw [if_neg h, ite_self]

theorem generateClientScriptTag_empty : generateClientScriptTag "" = noBundleComment := rfl

theorem firstMaxMajor_isSome (x : NodeCand) (xs : List NodeCand) :
    (firstMaxMajor (x :: xs)).isSome = true := by
  rw [firstMaxMajor]
  cases firstMaxMajor xs with
  | none => rfl
  | some b => by_cases hb : b.major > x.major <;> simp [hb]

theorem head_sortByMajorDesc (l : List NodeCand) :
    (sortByMajorDesc l).head? = firstMaxMajor l := by
  induction l with
  | nil => rfl
  | cons x xs ih =>
    rw [sortByMajorDesc, firstMaxMajor, ← ih]
    cases hs : sortByMajorDesc xs with
    | nil => simp [insertByMajorDesc]
    | cons y ys =>
      rw [insertByMajorDesc]
      by_cases hyx : y.major ≤ x.major
      · rw [if_pos hyx]
        simp [show ¬(y.major > x.major) from not_lt.mpr hyx]
      · rw [if_neg hyx]
        simp [show y.major > x.major from lt_of_not_le hyx]

theorem firstMaxMajor_spec (l : List NodeCand) (e : NodeCand)
    (h : firstMaxMajor l = some e) :
    ∃ pre post, l = pre ++ e :: post ∧ (∀ x ∈ pre, x.major < e.major) ∧
      (∀ x ∈ l, x.major ≤ e.major) := by
  induction l generalizing e with
  | nil => exact absurd h (by simp [firstMaxMajor])
  | cons x xs ih =>
    cases hx : firstMaxMajor xs with
    | none =>
      simp only [firstMaxMajor, hx] at h
      have hxs : xs = [] := by
        cases xs with
        | nil => rfl
        | cons y ys =>
          have := firstMaxMajor_isSome y ys
          rw [hx] at this
          exact absurd this (by simp)
      subst hxs
      have he : e = x := by injection h with he; exact he.symm
      subst he
      exact ⟨[], [], rfl, by simp, by simp⟩
    | some b =>
      simp only [firstMaxMajor, hx] at h
      by_cases hbx : b.major > x.major
      · rw [if_pos hbx] at h
        have he : e = b := by injection h with he; exact he.symm
        subst he
        obtain ⟨pre, post, heq, hpre, hall⟩ := ih e hx
        refine ⟨x :: pre, post, by rw [heq]; rfl, ?_, ?_⟩
        · intro y hy
          rcases List.mem_cons.mp hy with hyx2 | hyp
          · rw [hyx2]; exact hbx
          · exact hpre y hyp
        · intro y hy
          rcases List.mem_cons.mp hy with hyx2 | hyp
          · rw [hyx2]; exact le_of_lt hbx
          · exact hall y hyp
      · rw [if_neg hbx] at h
        have he : e = x := by injection h with he; exact he.symm
        subst he
        obtain ⟨pre, post, heq, hpre, hall⟩ := ih b hx
        refine ⟨[], xs, rfl, by simp, ?_⟩
        intro y hy
        rcases List.mem_cons.mp hy with hyx2 | hyp
        · rw [hyx2]
        · exact le_trans (hall y hyp) (not_lt.mp hbx)

theorem getCompatibleNodeCommand_eq_firstMax (ps : List (String × ProbeOutcome)) :
    getCompatibleNodeCommand ps =
      (match firstMaxMajor (collectNodes ps).1 with
       | some best => Except.ok best.cmd
       | none => Except.error (nodeMissingThrow (collectNodes ps).2)) := by
  simp only [getCompatibleNodeCommand, head_sortByMajorDesc]

theorem collectNodes_fst_ge22 (ps : List (String × ProbeOutcome)) :
    ∀ e ∈ (collectNodes ps).1, 22 ≤ e.major := by
  induction ps with
  | nil => simp [collectNodes]
  | cons p rest ih =>
    obtain ⟨cmd, o⟩ := p
    intro e he
    rw [collectNodes] at he
    cases hpv : probeVersion o with
    | none => rw [hpv, collectStep] at he; exact ih e he
    | some mv =>
      obtain ⟨mj, ver⟩ := mv
      rw [hpv, collectStep] at he
      by_cases h22 : mj ≥ 22
      · rw [if_pos h22] at he
        rcases List.mem_cons.mp he with he1 | he2
        · rw [he1]; exact h22
        · exact ih e he2
      · rw [if_neg h22] at he
        by_cases h18 : mj ≥ 18
        · rw [if_pos h18] at he; exact ih e he
        · rw [if_neg h18] at he; exact ih e he

theorem collectNodes_snd_bounds (ps : List (String × ProbeOutcome)) :
    ∀ e ∈ (collectNodes ps).2, 18 ≤ e.major ∧ e.major < 22 := by
  induction ps with
  | nil => simp [collectNodes]
  | cons p rest ih =>
    obtain ⟨cmd, o⟩ := p
    intro e he
    rw [collectNodes] at he
    cases hpv : probeVersion o with
    | none => rw [hpv, collectStep] at he; exact ih e he
    | some mv =>
      obtain ⟨mj, ver⟩ := mv
      rw [hpv, collectStep] at he
      by_cases h22 : mj ≥ 22
      · rw [if_pos h22] at he; exact ih e he
      · rw [if_neg h22] at he
        by_cases h18 : mj ≥ 18
        · rw [if_pos h18] at he
          rcases List.mem_cons.mp he with he1 | he2
          · rw [he1]; exact ⟨h18, lt_of_not_ge h22⟩
          · exact ih e he2
        · rw [if_neg h18] at he; exact ih e he

theorem collectNodes_skip (xs ys : List (String × ProbeOutcome)) (cmd : String)
    (o : ProbeOutcome) (h : probeVersion o = none) :
    collectNodes (xs ++ (cmd, o) :: ys) = collectNodes (xs ++ ys) := by
  induction xs with
  | nil => simp [collectNodes, collectStep, h]
  | cons p rest ih =>
    obtain ⟨c2, o2⟩ := p
    simp only [List.cons_append, collectNodes]
    exact congrArg (collectStep c2 (probeVersion o2)) ih

theorem joinComma_one (v : String) : joinComma [v] = v := rfl

theorem joinComma_cons2 (v w : String) (rest : List String) :
    joinComma (v :: w :: rest) = v ++ ", " ++ joinComma (w :: rest) := rfl

theorem joinComma_contains (vs : List String) (v : String) (hv : v ∈ vs) :
    ContainsSubstr (joinComma vs) v := by
  induction vs with
  | nil => exact absurd hv (List.not_mem_nil v)
  | cons w rest ih =>
    cases rest with
    | nil =>
      rcases List.mem_cons.mp hv with h1 | h2
      · rw [h1, joinComma_one]; exact ⟨[], [], by simp⟩
      · exact absurd h2 (List.not_mem_nil v)
    | cons w2 rest2 =>
      rcases List.mem_cons.mp hv with h1 | h2
      · rw [h1]
        exact containsSubstr_intro (joinComma (w :: w2 :: rest2)) "" w
          (", " ++ joinComma (w2 :: rest2))
          (by rw [joinComma_cons2]; simp [String.append_assoc])
      · exact containsSubstr_trans _ _ _
          (containsSubstr_intro (joinComma (w :: w2 :: rest2)) (w ++ ", ")
            (joinComma (w2 :: rest2)) ""
            (by rw [joinComma_cons2]; simp [String.append_assoc]))
          (ih h2)

theorem scanApps_none (path : String) (l : List AppEntry)
    (h : ∀ a ∈ l, a.vueFiles.lookup path = none) : scanApps path l = none := by
  induction l with
  | nil => rfl
  | cons a rest ih =>
    rw [scanApps, h a (List.mem_cons_self a rest)]
    exact ih (fun b hb => h b (List.mem_cons_of_mem a hb))

theorem scanApps_first (path : String) (pre : List AppEntry) (a : AppEntry)
    (post : List AppEntry) (content : String)
    (hpre : ∀ b ∈ pre, b.vueFiles.lookup path = none)
    (ha : a.vueFiles.lookup path = some content) :
    scanApps path (pre ++ a :: post) = some (mkLocator a path content) := by
  induction pre with
  | nil => rw [List.nil_append, scanApps, ha]
  | cons b rest ih =>
    rw [List.cons_append, scanApps, hpre b (List.mem_cons_self b rest)]
    exact ih (fun b2 hb2 => hpre b2 (List.mem_cons_of_mem b hb2))

theorem isPrefixList_append_self (p l : List Char) : isPrefixList p (p ++ l) = true := by
  induction p with
  | nil => rfl
  | cons c rest ih => simp [isPrefixList, ih]

theorem strStartsWith_append (p l : String) : strStartsWith (p ++ l) p = true := by
  unfold strStartsWith
  rw [String.data_append]
  exact isPrefixList_append_self p.data l.data

theorem splitOnCharList_no_sep (c : Char) (l : List Char) (h : ∀ x ∈ l, x ≠ c) :
    splitOnCharList c l = [l] := by
  induction l with
  | nil => rfl
  | cons x xs ih =>
    rw [splitOnCharList, ih (fun y hy => h y (List.mem_cons_of_mem x hy)),
      splitOnCharStep, if_neg (h x (List.mem_cons_self x xs))]

theorem splitOnCharList_ne_nil (c : Char) (l : List Char) : splitOnCharList c l ≠ [] := by
  cases l with
  | nil => simp [splitOnCharList]
  | cons x xs =>
    rw [splitOnCharList]
    cases splitOnCharList c xs with
    | nil => simp [splitOnCharStep]
    | cons h t =>
      rw [splitOnCharStep]
      by_cases hx : x = c
      · rw [if_pos hx]; simp
      · rw [if_neg hx]; simp

theorem splitOnCharList_two_of_mem (c : Char) (l : List Char) (h : c ∈ l) :
    ∃ s1 s2 ss, splitOnCharList c l = s1 :: s2 :: ss := by
  induction l with
  | nil => exact absurd h (List.not_mem_nil c)
  | cons x xs ih =>
    by_cases hx : x = c
    · rw [splitOnCharList]
      cases hs : splitOnCharList c xs with
      | nil => exact absurd hs (splitOnCharList_ne_nil c xs)
      | cons h2 t2 => exact ⟨[], h2, t2, by rw [splitOnCharStep, if_pos hx]⟩
    · have hmem : c ∈ xs := by
        rcases List.mem_cons.mp h with h1 | h2
        · exact absurd h1.symm hx
        · exact h2
      obtain ⟨s1, s2, ss, hs⟩ := ih hmem
      rw [splitOnCharList, hs]
      exact ⟨x :: s1, s2, ss, by rw [splitOnCharStep, if_neg hx]⟩

theorem lastSegD_cons_cons (d x : List Char) (y : List Char) (ys : List (List Char)) :
    lastSegD d (x :: y :: ys) = lastSegD d (y :: ys) := rfl

theorem lastSeg_split_append (c : Char) (pre fn : List Char)
    (hfn : ∀ x ∈ fn, x ≠ c) :
    lastSegD [] (splitOnCharList c (pre ++ c :: fn)) = fn := by
  induction pre with
  | nil =>
    rw [List.nil_append, splitOnCharList,
      splitOnCharList_no_sep c fn hfn, splitOnCharStep, if_pos rfl]
    rfl
  | cons p rest ih =>
    have hmem : c ∈ rest ++ c :: fn := List.mem_append_right rest (List.mem_cons_self c fn)
    obtain ⟨s1, s2, ss, hs⟩ := splitOnCharList_two_of_mem c _ hmem
    rw [List.cons_append, splitOnCharList, hs, splitOnCharStep]
    by_cases hp : p = c
    · rw [if_pos hp, lastSegD_cons_cons]
      rw [hs] at ih
      exact ih
    · rw [if_neg hp, lastSegD_cons_cons]
      rw [hs, lastSegD_cons_cons] at ih
      exact ih

theorem render_total (env : RenderEnv) :
    ∃ s, renderVueWithNodejs env = Except.ok s ∧ s ≠ "" := by
  unfold renderVueWithNodejs
  split
  · exact ⟨_, rfl, fallbackHtml_ne_empty _ _⟩
  · split
    · exact ⟨_, rfl, fallbackHtml_ne_empty _ _⟩
    · split
      · exact ⟨_, rfl, fallbackHtml_ne_empty _ _⟩
      · exact ⟨_, rfl, fallbackHtml_ne_empty _ _⟩
      · split
        · exact ⟨_, rfl, fallbackHtml_ne_empty _ _⟩
        · split
          · exact ⟨_, rfl, fallbackHtml_ne_empty _ _⟩
          · split
            · exact ⟨_, rfl, fallbackHtml_ne_empty _ _⟩
            · exact ⟨_, rfl, buildCompleteHtml_ne_empty _ _ _ _ _ _⟩

theorem render_fallback_on_failure (env : RenderEnv) (hf : FailureOutcome env) :
    ∃ m, renderVueWithNodejs env = Except.ok (fallbackHtml env.vueFilePath m) := by
  unfold renderVueWithNodejs
  split
  · exact ⟨_, rfl⟩
  · rename_i hre
    split
    · exact ⟨_, rfl⟩
    · rename_i c hc
      split
      · exact ⟨_, rfl⟩
      · exact ⟨_, rfl⟩
      · rename_i r hr
        split
        · exact ⟨_, rfl⟩
        · rename_i hrc
          split
          · exact ⟨_, rfl⟩
          · rename_i resp hresp
            split
            · exact ⟨_, rfl⟩
            · rename_i hsucc
              exfalso
              rcases hf with h | ⟨t, ht⟩ | h | ⟨m, hm⟩ | ⟨r', hr', hbad⟩
              · exact hre h
              · rw [hc] at ht; exact Except.noConfusion ht
              · rw [hr] at h; exact RunOutcome.noConfusion h
              · rw [hr] at hm; exact RunOutcome.noConfusion hm
              · rw [hr] at hr'
                have hrr : r = r' := by injection hr'
                subst hrr
                rcases hbad with h | ⟨m, hm⟩ | ⟨resp', hresp', hflag⟩
                · exact h (by push_neg at hrc; exact hrc)
                · rw [hresp] at hm; exact ParseOutcome.noConfusion hm
                · rw [hresp] at hresp'
                  have : resp = resp' := by injection hresp'
                  subst this
                  exact hsucc hflag

/-! ## Claim theorems -/

/-- Claim C1: for every outcome of the SSR subprocess invocation in
render_vue_with_nodejs (non-zero exit, stdout that fails to parse as
JSON, a parsed response whose success flag is false, a timeout, or any
other uncaught exception) the function returns a fallback HTML
document, a non-empty renderable page, and never propagates an
exception to its caller: the result is always Except.ok of a non-empty
string, and under every failure outcome it is the fallback document for
the offending component path. -/
theorem render_vue_with_nodejs_absorbs_failures (env : RenderEnv) :
    (∃ s, renderVueWithNodejs env = Except.ok s ∧ s ≠ "") ∧
    (FailureOutcome env →
      ∃ m, renderVueWithNodejs env = Except.ok (fallbackHtml env.vueFilePath m) ∧
        fallbackHtml env.vueFilePath m ≠ "") :=
  ⟨render_total env, fun hf => by
    obtain ⟨m, hm⟩ := render_fallback_on_failure env hf
    exact ⟨m, hm, fallbackHtml_ne_empty _ _⟩⟩

/-- Witness for C1: the timeout outcome on a concrete environment
produces a non-empty fallback document. -/
theorem render_vue_with_nodejs_absorbs_failures_witness :
    ∃ m, renderVueWithNodejs (demoEnv demoProbes RunOutcome.timeout)
        = Except.ok (fallbackHtml (demoEnv demoProbes RunOutcome.timeout).vueFilePath m) ∧
      fallbackHtml (demoEnv demoProbes RunOutcome.timeout).vueFilePath m ≠ "" :=
  (render_vue_with_nodejs_absorbs_failures (demoEnv demoProbes RunOutcome.timeout)).2
    (Or.inr (Or.inr (Or.inl rfl)))

/-- Counterexample for C2: with only a v18 candidate found,
get_compatible_node_command does raise via frappe.throw, but
render_vue_with_nodejs catches that exception in its general
except-Exception handler and returns the fallback HTML document, so the
missing-compatible-runtime failure does not escape the renderer as a
raised hard failure. -/
theorem node_throw_is_caught_counterexample :
    getCompatibleNodeCommand probes18
        = Except.error (nodeMissingThrow [⟨"node", 18, "v18.19.0"⟩]) ∧
    renderVueWithNodejs (demoEnv probes18 RunOutcome.timeout)
        = Except.ok (fallbackHtml (demoEnv probes18 RunOutcome.timeout).vueFilePath
            ("Vue SSR Exception: " ++ (nodeMissingThrow [⟨"node", 18, "v18.19.0"⟩]).msg)) :=
  ⟨rfl, rfl⟩

/-- Claim C2 as amended: when no probed candidate reports major version
at least 22, get_compatible_node_command raises a descriptive error
titled for the v22 requirement whose message lists every found
below-threshold version (major in 18..21); however this raise is caught
by the catch-all handler of render_vue_with_nodejs, which degrades it
to a fallback HTML page like every other failure, so it does not escape
the renderer as a raised hard failure. -/
theorem missing_node22_throws_but_render_degrades (env : RenderEnv)
    (hre : env.rendererExists = true)
    (hempty : (collectNodes env.probes).1 = [])
    (hothers : (collectNodes env.probes).2 ≠ []) :
    getCompatibleNodeCommand env.probes
        = Except.error (nodeMissingThrow (collectNodes env.probes).2) ∧
    (nodeMissingThrow (collectNodes env.probes).2).title = "Node.js v22+ Required" ∧
    (∀ e ∈ (collectNodes env.probes).2, 18 ≤ e.major ∧ e.major < 22 ∧
      ContainsSubstr (nodeMissingThrow (collectNodes env.probes).2).msg e.version) ∧
    renderVueWithNodejs env = Except.ok (fallbackHtml env.vueFilePath
      ("Vue SSR Exception: " ++ (nodeMissingThrow (collectNodes env.probes).2).msg)) := by
  have hsel : getCompatibleNodeCommand env.probes
      = Except.error (nodeMissingThrow (collectNodes env.probes).2) := by
    rw [getCompatibleNodeCommand_eq_firstMax, hempty]
    rfl
  have hne : (collectNodes env.probes).2.isEmpty = false := by
    cases h2 : (collectNodes env.probes).2 with
    | nil => exact absurd h2 hothers
    | cons a l => rfl
  refine ⟨hsel, rfl, ?_, ?_⟩
  · intro e he
    obtain ⟨h18, h22⟩ := collectNodes_snd_bounds env.probes e he
    refine ⟨h18, h22, ?_⟩
    have hmem : e.version ∈ (collectNodes env.probes).2.map NodeCand.version :=
      List.mem_map_of_mem NodeCand.version he
    refine containsSubstr_trans _ (joinComma ((collectNodes env.probes).2.map NodeCand.version))
      _ ?_ (joinComma_contains _ _ hmem)
    exact containsSubstr_intro _
      ("❌ Node.js v22 or higher is required for Vue SSR.\n" ++ "Found Node.js versions: ")
      (joinComma ((collectNodes env.probes).2.map NodeCand.version))
      ("\n" ++ nodeInstallMsg)
      (by simp [nodeMissingThrow, hne, String.append_assoc])
  · simp [renderVueWithNodejs, hre, hsel]

/-- Witness for C2 as amended: the environment probing only a v18
candidate satisfies the hypotheses, and its render call returns the
fallback document embedding the throw message. -/
theorem missing_node22_throws_but_render_degrades_witness :
    renderVueWithNodejs (demoEnv probes18 RunOutcome.timeout)
      = Except.ok (fallbackHtml (demoEnv probes18 RunOutcome.timeout).vueFilePath
          ("Vue SSR Exception: "
            ++ (nodeMissingThrow (collectNodes (demoEnv probes18 RunOutcome.timeout).probes).2).msg)) :=
  (missing_node22_throws_but_render_degrades (demoEnv probes18 RunOutcome.timeout)
    rfl rfl (by decide)).2.2.2

/-- Counterexample for C3: two passing candidates with equal major
version 22 but minor versions 1 and 9.  The selector sorts by major
version only, and the stable sort keeps probe order among equal majors,
so it picks whichever candidate was probed first instead of the highest
version number, and swapping probe order changes the selection. -/
theorem selector_order_dependent_counterexample :
    getCompatibleNodeCommand probesAB = Except.ok "nodeA" ∧
    getCompatibleNodeCommand probesBA = Except.ok "nodeB" ∧
    (collectNodes probesAB).1.map NodeCand.version = ["v22.1.0", "v22.9.0"] :=
  ⟨rfl, rfl, rfl⟩

/-- Claim C3 as amended: the selector picks the first-probed candidate
among those achieving the maximal major version of all candidates whose
major version is at least 22; for probe sets with pairwise distinct
majors (such as the spec example v18.x, v23.x, v22.1) this is the
candidate with the highest version, but candidates sharing the highest
major are tie-broken by probe order, not by full version. -/
theorem selector_picks_first_highest_major (ps : List (String × ProbeOutcome)) (c : String)
    (h : getCompatibleNodeCommand ps = Except.ok c) :
    ∃ pre e post, (collectNodes ps).1 = pre ++ e :: post ∧ e.cmd = c ∧ 22 ≤ e.major ∧
      (∀ x ∈ pre, x.major < e.major) ∧
      (∀ x ∈ (collectNodes ps).1, x.major ≤ e.major) := by
  rw [getCompatibleNodeCommand_eq_firstMax] at h
  cases hfm : firstMaxMajor (collectNodes ps).1 with
  | none => rw [hfm] at h; exact Except.noConfusion h
  | some e =>
    rw [hfm] at h
    have hc : e.cmd = c := by injection h with h2
    obtain ⟨pre, post, heq, hpre, hall⟩ := firstMaxMajor_spec _ e hfm
    refine ⟨pre, e, post, heq, hc, ?_, hpre, hall⟩
    exact collectNodes_fst_ge22 ps e
      (by rw [heq]; exact List.mem_append_right pre (List.mem_cons_self e post))

/-- Witness for C3 as amended: on the spec example probes the selector
returns n23, the first (and only) candidate with the maximal major 23. -/
theorem selector_picks_first_highest_major_witness :
    ∃ pre e post, (collectNodes probesSpecExample).1 = pre ++ e :: post ∧
      e.cmd = "n23" ∧ 22 ≤ e.major ∧ (∀ x ∈ pre, x.major < e.major) ∧
      (∀ x ∈ (collectNodes probesSpecExample).1, x.major ≤ e.major) :=
  selector_picks_first_highest_major probesSpecExample "n23" rfl

/-- Claim C7: a probed candidate whose invocation raised, or whose
reported version string does not parse as v followed by a major
number, is skipped silently: the selection outcome over any probe list
containing it equals the outcome with it removed, so it is never
selected and never aborts the probing loop. -/
theorem bad_probe_skipped (xs ys : List (String × ProbeOutcome)) (cmd : String)
    (o : ProbeOutcome) (h : o = ProbeOutcome.err ∨ probeVersion o = none) :
    getCompatibleNodeCommand (xs ++ (cmd, o) :: ys) = getCompatibleNodeCommand (xs ++ ys) := by
  have hpv : probeVersion o = none := by
    rcases h with h1 | h2
    · rw [h1]; rfl
    · exact h2
  unfold getCompatibleNodeCommand
  rw [collectNodes_skip xs ys cmd o hpv]

/-- Witness for C7: a missing node22 binary probed before a working
v22 binary changes nothing, and probing then still selects node. -/
theorem bad_probe_skipped_witness :
    getCompatibleNodeCommand (("node22", ProbeOutcome.err) :: demoProbes)
        = getCompatibleNodeCommand demoProbes ∧
    getCompatibleNodeCommand demoProbes = Except.ok "node" :=
  ⟨bad_probe_skipped [] demoProbes "node22" ProbeOutcome.err (Or.inl rfl), rfl⟩

/-- Claim C9: the legacy entry point get_context invokes the build
script node build.js through get_html_from_vue and assigns the
output of that script as the response body content; the value is fully
determined by the shell-out, independent of the VueRenderer pipeline. -/
theorem legacy_get_context_runs_build_script (sh : LegacyShell) :
    getContextResponseContent sh = sh.runScript "node build.js" ∧
    getContextResponseContent sh = getHtmlFromVue sh :=
  ⟨rfl, rfl⟩

/-- Claim C4: for every request path the component locator scans the
installed applications in reverse installation order and selects the
first application whose www directory holds the component file,
recording the application name, the file path and content and the
derived name and title fields; when no installed application has such
a file, the scan finds nothing and can_render is false so the renderer
declines the request. -/
theorem locator_first_app_reverse_order (apps : List AppEntry) (path : String) :
    ((∀ a ∈ apps, a.vueFiles.lookup path = none) →
      setVueTemplatePath apps path = none ∧ canRender apps path = false) ∧
    (∀ pre a post content, apps.reverse = pre ++ a :: post →
      (∀ b ∈ pre, b.vueFiles.lookup path = none) →
      a.vueFiles.lookup path = some content →
      setVueTemplatePath apps path = some (mkLocator a path content) ∧
      canRender apps path = true ∧
      (mkLocator a path content).app = a.name ∧
      (mkLocator a path content).vueFilePath = a.appPath ++ "/www/" ++ path ++ ".vue" ∧
      (mkLocator a path content).content = content ∧
      (mkLocator a path content).name
          = splitextRoot (lastPathComponent (a.appPath ++ "/www/" ++ path ++ ".vue")) ∧
      contextTitle (mkLocator a path content)
          = "Vue SSR: " ++ (mkLocator a path content).name) := by
  constructor
  · intro hnone
    have hs : scanApps path apps.reverse = none :=
      scanApps_none path apps.reverse
        (fun a ha => hnone a (List.mem_reverse.mp ha))
    exact ⟨hs, by unfold canRender setVueTemplatePath; rw [hs]; rfl⟩
  · intro pre a post content hrev hpre ha
    have hs : setVueTemplatePath apps path = some (mkLocator a path content) := by
      unfold setVueTemplatePath
      rw [hrev]
      exact scanApps_first path pre a post content hpre ha
    exact ⟨hs, by unfold canRender; rw [hs]; rfl, rfl, rfl, rfl, rfl, rfl⟩

/-- Witness for C4: with appA installed before appB and both owning
www/index.vue, the reverse-order scan selects appB; a path present in
no app yields a declined render. -/
theorem locator_first_app_reverse_order_witness :
    setVueTemplatePath [appA, appB] "index"
        = some (mkLocator appB "index" "<template>B</template>") ∧
    canRender [appA, appB] "index" = true ∧
    setVueTemplatePath [appA, appB] "docs/guide" = none ∧
    canRender [appA, appB] "docs/guide" = false :=
  ⟨((locator_first_app_reverse_order [appA, appB] "index").2 [] appB [appA]
      "<template>B</template>" rfl (fun b hb => absurd hb (List.not_mem_nil b)) rfl).1,
   ((locator_first_app_reverse_order [appA, appB] "index").2 [] appB [appA]
      "<template>B</template>" rfl (fun b hb => absurd hb (List.not_mem_nil b)) rfl).2.1,
   ((locator_first_app_reverse_order [appA, appB] "docs/guide").1 (by decide)).1,
   ((locator_first_app_reverse_order [appA, appB] "docs/guide").1 (by decide)).2⟩

/-- Claim C5: every SSR subprocess run that exits with a non-zero code
yields the fallback document built from the stderr text (or the
synthetic message Node.js renderer failed when stderr is empty)
prefixed with Vue SSR Error, containing the offending component file
path, regardless of how the stdout of the run decodes; the success
template is not produced. -/
theorem nonzero_exit_yields_fallback (env : RenderEnv) (r : SubprocResult)
    (hre : env.rendererExists = true)
    (hsel : ∃ c, getCompatibleNodeCommand env.probes = Except.ok c)
    (hrun : env.ssrRun = RunOutcome.completed r)
    (hrc : r.returncode ≠ 0) :
    renderVueWithNodejs env = Except.ok (fallbackHtml env.vueFilePath
      ("Vue SSR Error: " ++ (if r.stderr = "" then "Node.js renderer failed" else r.stderr))) ∧
    ContainsSubstr
      (fallbackHtml env.vueFilePath
        ("Vue SSR Error: " ++ (if r.stderr = "" then "Node.js renderer failed" else r.stderr)))
      env.vueFilePath ∧
    (r.stderr ≠ "" →
      ContainsSubstr
        (fallbackHtml env.vueFilePath
          ("Vue SSR Error: " ++ (if r.stderr = "" then "Node.js renderer failed" else r.stderr)))
        r.stderr) := by
  obtain ⟨c, hc⟩ := hsel
  refine ⟨by simp [renderVueWithNodejs, hre, hc, hrun, hrc], fallbackHtml_contains_path _ _, ?_⟩
  intro hstderr
  refine containsSubstr_trans _
    ("Vue SSR Error: " ++ (if r.stderr = "" then "Node.js renderer failed" else r.stderr)) _
    (fallbackHtml_contains_err _ _) ?_
  rw [if_neg hstderr]
  exact containsSubstr_intro _ "Vue SSR Error: " r.stderr "" (by simp)

/-- Witness for C5: exit code 1 with stderr boom yields the fallback
document containing boom, even though the stdout of that run decodes as
a fully successful response. -/
theorem nonzero_exit_yields_fallback_witness :
    renderVueWithNodejs (demoEnv demoProbes runBoom)
        = Except.ok (fallbackHtml (demoEnv demoProbes runBoom).vueFilePath
            ("Vue SSR Error: " ++ (if ("boom" : String) = "" then "Node.js renderer failed" else "boom"))) ∧
    ContainsSubstr
      (fallbackHtml (demoEnv demoProbes runBoom).vueFilePath
        ("Vue SSR Error: " ++ (if ("boom" : String) = "" then "Node.js renderer failed" else "boom")))
      "boom" :=
  ⟨(nonzero_exit_yields_fallback (demoEnv demoProbes runBoom) ⟨1, "boom", ParseOutcome.parsed respHi⟩
      rfl ⟨"node", rfl⟩ rfl (by decide)).1,
   (nonzero_exit_yields_fallback (demoEnv demoProbes runBoom) ⟨1, "boom", ParseOutcome.parsed respHi⟩
      rfl ⟨"node", rfl⟩ rfl (by decide)).2.2 (by decide)⟩

/-- Claim C6: every successful render result (exit code 0, decodable
stdout, success flag true) is assembled into a document that carries
the rendered markup inside the mount-point element, the style text
inside the embedded stylesheet, the hydration data script block, and,
when the client bundle URL is non-empty (a leading-slash local path or
an external URL), a script tag with that URL verbatim as its src. -/
theorem successful_render_document_structure (env : RenderEnv) (r : SubprocResult)
    (resp : SSRResponse)
    (hre : env.rendererExists = true)
    (hsel : ∃ c, getCompatibleNodeCommand env.probes = Except.ok c)
    (hrun : env.ssrRun = RunOutcome.completed r)
    (hrc : r.returncode = 0)
    (hparse : r.stdoutParse = ParseOutcome.parsed resp)
    (hsucc : resp.success = true)
    (hurl : (resp.clientBundleUrl).getD "" ≠ "") :
    renderVueWithNodejs env = Except.ok
      (buildCompleteHtml ((env.titleOpt).getD "Vue Page") env.nowStr ((resp.html).getD "")
        ((resp.styles).getD "") ((resp.clientBundleUrl).getD "") ((resp.serverDataScript).getD "")) ∧
    ContainsSubstr
      (buildCompleteHtml ((env.titleOpt).getD "Vue Page") env.nowStr ((resp.html).getD "")
        ((resp.styles).getD "") ((resp.clientBundleUrl).getD "") ((resp.serverDataScript).getD ""))
      (mountOpen ++ (resp.html).getD "" ++ mountClose) ∧
    ContainsSubstr
      (buildCompleteHtml ((env.titleOpt).getD "Vue Page") env.nowStr ((resp.html).getD "")
        ((resp.styles).getD "") ((resp.clientBundleUrl).getD "") ((resp.serverDataScript).getD ""))
      (styleMark ++ (resp.styles).getD "" ++ styleClose) ∧
    ContainsSubstr
      (buildCompleteHtml ((env.titleOpt).getD "Vue Page") env.nowStr ((resp.html).getD "")
        ((resp.styles).getD "") ((resp.clientBundleUrl).getD "") ((resp.serverDataScript).getD ""))
      (hydrationOpen ++ (resp.serverDataScript).getD "" ++ hydrationClose) ∧
    ContainsSubstr
      (buildCompleteHtml ((env.titleOpt).getD "Vue Page") env.nowStr ((resp.html).getD "")
        ((resp.styles).getD "") ((resp.clientBundleUrl).getD "") ((resp.serverDataScript).getD ""))
      (scriptTagFor ((resp.clientBundleUrl).getD "")) := by
  obtain ⟨c, hc⟩ := hsel
  refine ⟨by simp [renderVueWithNodejs, hre, hc, hrun, hrc, hparse, hsucc],
    buildCompleteHtml_contains_mount _ _ _ _ _ _,
    buildCompleteHtml_contains_styles _ _ _ _ _ _,
    buildCompleteHtml_contains_hydration _ _ _ _ _ _, ?_⟩
  have := buildCompleteHtml_contains_scriptSlot ((env.titleOpt).getD "Vue Page") env.nowStr
    ((resp.html).getD "") ((resp.styles).getD "") ((resp.clientBundleUrl).getD "")
    ((resp.serverDataScript).getD "")
  rwa [generateClientScriptTag_nonempty_url _ hurl] at this

/-- Witness for C6: the spec example response (html p-hi, bundle URL
/assets/app/ssr/b.js) renders to a document containing the markup
inside the mount point and a script tag referencing the bundle URL. -/
theorem successful_render_document_structure_witness :
    renderVueWithNodejs (demoEnv demoProbes runHi) = Except.ok
      (buildCompleteHtml "Vue SSR: index" "2026-10-12 00:00:00" "<p>hi</p>" "" "/assets/app/ssr/b.js" "") ∧
    ContainsSubstr
      (buildCompleteHtml "Vue SSR: index" "2026-10-12 00:00:00" "<p>hi</p>" "" "/assets/app/ssr/b.js" "")
      (mountOpen ++ "<p>hi</p>" ++ mountClose) ∧
    ContainsSubstr
      (buildCompleteHtml "Vue SSR: index" "2026-10-12 00:00:00" "<p>hi</p>" "" "/assets/app/ssr/b.js" "")
      (scriptTagFor "/assets/app/ssr/b.js") :=
  ⟨(successful_render_document_structure (demoEnv demoProbes runHi)
      ⟨0, "", ParseOutcome.parsed respHi⟩ respHi rfl ⟨"node", rfl⟩ rfl rfl rfl rfl (by decide)).1,
   (successful_render_document_structure (demoEnv demoProbes runHi)
      ⟨0, "", ParseOutcome.parsed respHi⟩ respHi rfl ⟨"node", rfl⟩ rfl rfl rfl rfl (by decide)).2.1,
   (successful_render_document_structure (demoEnv demoProbes runHi)
      ⟨0, "", ParseOutcome.parsed respHi⟩ respHi rfl ⟨"node", rfl⟩ rfl rfl rfl rfl (by decide)).2.2.2.2⟩

theorem lastPathComponent_asset_url (app fn : String)
    (hfn : ∀ ch ∈ fn.data, ch ≠ '/') :
    lastPathComponent ("/assets/" ++ app ++ "/ssr/" ++ fn) = fn := by
  unfold lastPathComponent
  have hdata : ("/assets/" ++ app ++ "/ssr/" ++ fn).data
      = ("/assets/".data ++ app.data ++ ('/' :: 's' :: 's' :: 'r' :: [])) ++ '/' :: fn.data := by
    simp [String.data_append, List.append_assoc]
  rw [hdata, lastSeg_split_append '/' _ fn.data hfn]

/-- Claim C8: a successful render whose client bundle URL is a local
asset path of the owning app whose backing file under app public/ssr
does not exist has the missing file logged as an error naming the
expected path, while rendering is not blocked: the script tag
referencing that URL is still emitted in the assembled document. -/
theorem missing_bundle_logged_not_blocking
    (app appPath fn : String) (existingPaths : List String)
    (env : RenderEnv) (r : SubprocResult) (resp : SSRResponse)
    (hfn : ∀ ch ∈ fn.data, ch ≠ '/')
    (hmiss : (appPath ++ "/public/ssr/" ++ fn) ∉ existingPaths)
    (hre : env.rendererExists = true)
    (hsel : ∃ c, getCompatibleNodeCommand env.probes = Except.ok c)
    (hrun : env.ssrRun = RunOutcome.completed r)
    (hrc : r.returncode = 0)
    (hparse : r.stdoutParse = ParseOutcome.parsed resp)
    (hsucc : resp.success = true)
    (hurl : (resp.clientBundleUrl).getD "" = "/assets/" ++ app ++ "/ssr/" ++ fn) :
    registerStaticFile app appPath existingPaths ("/assets/" ++ app ++ "/ssr/" ++ fn)
        = (false, [(LogLevel.error,
            "Vue client bundle not found at " ++ (appPath ++ "/public/ssr/" ++ fn))]) ∧
    renderVueWithNodejs env = Except.ok
      (buildCompleteHtml ((env.titleOpt).getD "Vue Page") env.nowStr ((resp.html).getD "")
        ((resp.styles).getD "") ((resp.clientBundleUrl).getD "") ((resp.serverDataScript).getD "")) ∧
    ContainsSubstr
      (buildCompleteHtml ((env.titleOpt).getD "Vue Page") env.nowStr ((resp.html).getD "")
        ((resp.styles).getD "") ((resp.clientBundleUrl).getD "") ((resp.serverDataScript).getD ""))
      (scriptTagFor ("/assets/" ++ app ++ "/ssr/" ++ fn)) := by
  obtain ⟨c, hc⟩ := hsel
  have hurlne : ("/assets/" ++ app ++ "/ssr/" ++ fn : String) ≠ "" := by
    apply str_append_ne_empty
    apply str_append_ne_empty
    apply str_append_ne_empty
    decide
  refine ⟨?_, by simp [renderVueWithNodejs, hre, hc, hrun, hrc, hparse, hsucc], ?_⟩
  · unfold registerStaticFile
    rw [if_pos (strStartsWith_append ("/assets/" ++ app ++ "/ssr/") fn),
      lastPathComponent_asset_url app fn hfn, if_neg hmiss]
  · have := buildCompleteHtml_contains_scriptSlot ((env.titleOpt).getD "Vue Page") env.nowStr
      ((resp.html).getD "") ((resp.styles).getD "") ((resp.clientBundleUrl).getD "")
      ((resp.serverDataScript).getD "")
    rw [hurl] at this ⊢
    rwa [generateClientScriptTag_nonempty_url _ hurlne] at this

/-- Witness for C8: bundle URL /assets/app/ssr/b.js with an empty
filesystem: the register step returns false and logs the missing
expected path, and the assembled document still has the script tag. -/
theorem missing_bundle_logged_not_blocking_witness :
    registerStaticFile "app" "/bench/apps/app/app" [] ("/assets/" ++ "app" ++ "/ssr/" ++ "b.js")
        = (false, [(LogLevel.error,
            "Vue client bundle not found at " ++ ("/bench/apps/app/app" ++ "/public/ssr/" ++ "b.js"))]) ∧
    ContainsSubstr
      (buildCompleteHtml (((demoEnv demoProbes runHi).titleOpt).getD "Vue Page")
        (demoEnv demoProbes runHi).nowStr ((respHi.html).getD "")
        ((respHi.styles).getD "") ((respHi.clientBundleUrl).getD "") ((respHi.serverDataScript).getD ""))
      (scriptTagFor ("/assets/" ++ "app" ++ "/ssr/" ++ "b.js")) :=
  ⟨(missing_bundle_logged_not_blocking "app" "/bench/apps/app/app" "b.js" []
      (demoEnv demoProbes runHi) ⟨0, "", ParseOutcome.parsed respHi⟩ respHi
      (by decide) (by simp) rfl ⟨"node", rfl⟩ rfl rfl rfl rfl rfl).1,
   (missing_bundle_logged_not_blocking "app" "/bench/apps/app/app" "b.js" []
      (demoEnv demoProbes runHi) ⟨0, "", ParseOutcome.parsed respHi⟩ respHi
      (by decide) (by simp) rfl ⟨"node", rfl⟩ rfl rfl rfl rfl rfl).2.2⟩

set_option maxHeartbeats 1000000 in
/-- Claim C10: a successful render result with an empty client bundle
URL produces a document containing the no-bundle comment placeholder in
the bundle slot, and the placeholder itself holds no script tag; every
non-empty URL instead yields exactly the single script tag with that
URL verbatim as its src. -/
theorem client_script_tag_empty_vs_nonempty :
    (∀ env r resp,
      env.rendererExists = true →
      (∃ c, getCompatibleNodeCommand env.probes = Except.ok c) →
      env.ssrRun = RunOutcome.completed r → r.returncode = 0 →
      r.stdoutParse = ParseOutcome.parsed resp → resp.success = true →
      (resp.clientBundleUrl).getD "" = "" →
      renderVueWithNodejs env = Except.ok
        (buildCompleteHtml ((env.titleOpt).getD "Vue Page") env.nowStr ((resp.html).getD "")
          ((resp.styles).getD "") ((resp.clientBundleUrl).getD "")
          ((resp.serverDataScript).getD "")) ∧
      ContainsSubstr
        (buildCompleteHtml ((env.titleOpt).getD "Vue Page") env.nowStr ((resp.html).getD "")
          ((resp.styles).getD "") ((resp.clientBundleUrl).getD "")
          ((resp.serverDataScript).getD ""))
        noBundleComment) ∧
    ¬ ContainsSubstr noBundleComment "<script" ∧
    generateClientScriptTag "" = noBundleComment ∧
    (∀ url : String, url ≠ "" → generateClientScriptTag url = scriptTagFor url) := by
  refine ⟨?_, by decide, rfl, generateClientScriptTag_nonempty_url⟩
  intro env r resp hre hsel hrun hrc hparse hsucc hurl
  obtain ⟨c, hc⟩ := hsel
  rw [hurl]
  refine ⟨by simp [renderVueWithNodejs, hre, hc, hrun, hrc, hparse, hsucc, hurl], ?_⟩
  have := buildCompleteHtml_contains_scriptSlot ((env.titleOpt).getD "Vue Page") env.nowStr
    ((resp.html).getD "") ((resp.styles).getD "") "" ((resp.serverDataScript).getD "")
  rwa [generateClientScriptTag_empty] at this

/-- Witness for C10: a successful response with no bundle URL renders
to a document containing the placeholder comment. -/
theorem client_script_tag_empty_vs_nonempty_witness :
    renderVueWithNodejs (demoEnv demoProbes runNoBundle) = Except.ok
      (buildCompleteHtml "Vue SSR: index" "2026-10-12 00:00:00" "<p>hi</p>" "" "" "") ∧
    ContainsSubstr
      (buildCompleteHtml "Vue SSR: index" "2026-10-12 00:00:00" "<p>hi</p>" "" "" "")
      noBundleComment :=
  client_script_tag_empty_vs_nonempty.1 (demoEnv demoProbes runNoBundle)
    ⟨0, "", ParseOutcome.parsed respNoBundle⟩ respNoBundle
    rfl ⟨"node", rfl⟩ rfl rfl rfl rfl rfl
